import Mathlib

/-!
Shallow embedding of `infra/cifuzz/clusterfuzz_deployment.py`: the ClusterFuzz
deployment abstraction of the OSS-Fuzz CIFuzz infrastructure.

The module defines two deployment strategies, `ClusterFuzzLite` and `OSSFuzz`,
behind the common base class `BaseClusterFuzzDeployment`, plus the factory
`get_clusterfuzz_deployment`.  Filesystem state is embedded as an explicit list
of existing directories; the external collaborators (the filestore, the
HTTP fetch-and-unpack helper `http_utils.download_and_unpack_zip`, and
`urllib.request.urlopen`) are passed in as function-valued parameters, and each
operation additionally returns the log of the collaborator calls it made, so
that call-counting properties can be stated.
-/

/-- Python exception values, as far as this module distinguishes them:
`attributeError` models Python's `AttributeError` raised by a failed attribute
lookup; `exc msg` models any other exception carrying a message. -/
inductive PyErr where
  | attributeError : PyErr
  | exc : String → PyErr
  deriving DecidableEq, Repr

/-- An HTTP error response, as raised by `urllib.error.HTTPError`. -/
structure HTTPError where
  code : Nat
  deriving DecidableEq, Repr

/-- The local filesystem state: the list of directories that exist. -/
abbrev FS := List String

/-- Modelled from the spec: the `Platform` enum of the configuration object
(`config_utils`, not under `src/`).  The spec says it includes at least
`INTERNAL_GENERIC_CI` and `INTERNAL_GITHUB`, and other values meaning
"lite"; the other values are the external CI platforms. -/
inductive Platform where
  | INTERNAL_GENERIC_CI : Platform
  | INTERNAL_GITHUB : Platform
  | EXTERNAL_GENERIC_CI : Platform
  | EXTERNAL_GITHUB : Platform
  deriving DecidableEq, Repr

/-- The configuration object consumed by this module: `project_name`,
`sanitizer` and `platform` are the only fields it reads. -/
structure Config where
  project_name : String
  sanitizer : String
  platform : Platform
  deriving DecidableEq, Repr

/-- Python `os.path.exists` over the embedded filesystem state. -/
def os_path_exists (fs : FS) (p : String) : Bool :=
  match fs with
  | [] => false
  | q :: rest => if p = q then true else os_path_exists rest p

/-- Python `os.makedirs(p, exist_ok=True)`: create the directory if absent. -/
def makedirs (fs : FS) (p : String) : FS :=
  if os_path_exists fs p then fs else p :: fs

/-- Python `os.path.join` for the relative path components this module joins:
components are separated by "/". -/
def os_path_join (parts : List String) : String :=
  String.intercalate "/" parts

/-- Python `str.startswith`, modelled on the character sequence of the
strings. -/
def str_startswith (s pre : String) : Bool :=
  pre.data.isPrefixOf s.data

/-- Python `str.endswith`, modelled on the character sequence of the
strings. -/
def str_endswith (s post : String) : Bool :=
  post.data.isSuffixOf s.data

/-- Modelled from the spec: `utils.GCS_BASE_URL` (module `infra/utils.py`, not
under `src/`), the well-known storage base URL of the Google Cloud Storage
HTTP endpoint. -/
def GCS_BASE_URL : String := "https://storage.googleapis.com/"

/-- Modelled from the spec: the shared URL-joining helper `utils.url_join`
(module `infra/utils.py`, not under `src/`): POSIX-style join of URL sections,
inserting a "/" between sections unless the accumulated URL already ends with
one. -/
def url_join (parts : List String) : String :=
  parts.foldl
    (fun acc part =>
      if acc = "" then part
      else if str_endswith acc "/" then acc ++ part
      else acc ++ "/" ++ part)
    ""

namespace BaseClusterFuzzDeployment

/-- `BaseClusterFuzzDeployment.CORPUS_DIR_NAME`. -/
def CORPUS_DIR_NAME : String := "cifuzz-corpus"

/-- `BaseClusterFuzzDeployment.BUILD_DIR_NAME`. -/
def BUILD_DIR_NAME : String := "cifuzz-latest-build"

/-- `BaseClusterFuzzDeployment.get_corpus_dir`: the corpus dir for
`target_name` within `parent_dir`. -/
def get_corpus_dir (target_name parent_dir : String) : String :=
  os_path_join [parent_dir, CORPUS_DIR_NAME, target_name]

/-- `BaseClusterFuzzDeployment.get_build_dir`: the build dir within
`parent_dir`. -/
def get_build_dir (parent_dir : String) : String :=
  os_path_join [parent_dir, BUILD_DIR_NAME]

end BaseClusterFuzzDeployment

namespace ClusterFuzzLite

open BaseClusterFuzzDeployment

/-- `ClusterFuzzLite.BASE_BUILD_NAME`. -/
def BASE_BUILD_NAME : String := "cifuzz-build-"

/-- `ClusterFuzzLite._get_build_name`. -/
def get_build_name (config : Config) : String :=
  BASE_BUILD_NAME ++ config.sanitizer

/-- `ClusterFuzzLite._get_corpus_name`: the name of the corpus artifact,
`"corpus-{target_name}"`. -/
def get_corpus_name (target_name : String) : String :=
  "corpus-" ++ target_name

/-- Outcome of `ClusterFuzzLite.download_latest_build`: the returned value
(`some` path or `none`), the filesystem state afterwards, and the log of build
names passed to `filestore.download_latest_build` during the call. -/
structure BuildDownload where
  result : Option String
  fs : FS
  filestore_calls : List String

/-- `ClusterFuzzLite.download_latest_build`.  `filestore_dl` is the
collaborator `filestore.download_latest_build(name, dir) -> bool`. -/
def download_latest_build (filestore_dl : String → String → Bool)
    (config : Config) (fs : FS) (parent_dir : String) : BuildDownload :=
  let build_dir := get_build_dir parent_dir
  if os_path_exists fs build_dir then
    -- Cache hit: download_latest_build can be called multiple times.
    ⟨some build_dir, fs, []⟩
  else
    let fs := makedirs fs build_dir
    let build_name := get_build_name config
    if filestore_dl build_name build_dir then
      ⟨some build_dir, fs, [build_name]⟩
    else
      ⟨none, fs, [build_name]⟩

/-- `ClusterFuzzLite.download_corpus`.  `filestore_dc` is the collaborator
`filestore.download_corpus(name, dir)`, which may raise; on an error the code
logs and re-raises the same exception, otherwise it returns the corpus
directory (paired here with the filesystem state). -/
def download_corpus (filestore_dc : String → String → Except PyErr Unit)
    (fs : FS) (target_name parent_dir : String) :
    Except PyErr (String × FS) :=
  let corpus_dir := get_corpus_dir target_name parent_dir
  let fs := makedirs fs corpus_dir
  let corpus_name := get_corpus_name target_name
  match filestore_dc corpus_name corpus_dir with
  | .error err => .error err
  | .ok _ => .ok (corpus_dir, fs)

/-- `ClusterFuzzLite.upload_corpus`.  `filestore_uc` is the collaborator
`filestore.upload_corpus(name, dir)`, which may raise; the code catches any
exception, logs it and swallows it, so the call always completes normally. -/
def upload_corpus (filestore_uc : String → String → Except PyErr Unit)
    (target_name corpus_dir : String) : Except PyErr Unit :=
  let name := get_corpus_name target_name
  match filestore_uc name corpus_dir with
  | .error _ => .ok ()
  | .ok _ => .ok ()

/-- `ClusterFuzzLite.upload_latest_build`: delegates to
`filestore.upload_latest_build` and returns its boolean verbatim. -/
def upload_latest_build (filestore_ul : String → String → Bool)
    (config : Config) (build_dir : String) : Bool :=
  filestore_ul (get_build_name config) build_dir

end ClusterFuzzLite

namespace OSSFuzz

open BaseClusterFuzzDeployment

/-- `OSSFuzz.CLUSTERFUZZ_BUILDS`: location of clusterfuzz builds on GCS. -/
def CLUSTERFUZZ_BUILDS : String := "clusterfuzz-builds"

/-- `OSSFuzz.CORPUS_ZIP_NAME`: zip file name containing the corpus. -/
def CORPUS_ZIP_NAME : String := "public.zip"

/-- `OSSFuzz.VERSION_STRING` instantiated:
`"{project_name}-{sanitizer}-latest.version"`. -/
def version_file (config : Config) : String :=
  config.project_name ++ "-" ++ config.sanitizer ++ "-latest.version"

/-- The URL of the version file fetched by `OSSFuzz.get_latest_build_name`. -/
def version_url (config : Config) : String :=
  url_join [GCS_BASE_URL, CLUSTERFUZZ_BUILDS, config.project_name,
            version_file config]

/-- `OSSFuzz.get_latest_build_name`.  `urlopen` is
`urllib.request.urlopen` composed with `response.read().decode()`: it either
raises `urllib.error.HTTPError` or yields the decoded response body.  The
code catches the `HTTPError`, logs, and returns `None`; on success it returns
the decoded body verbatim.  The second component is the log of URLs
fetched. -/
def get_latest_build_name (urlopen : String → Except HTTPError String)
    (config : Config) : Option String × List String :=
  let url := version_url config
  match urlopen url with
  | .error _ => (none, [url])
  | .ok body => (some body, [url])

/-- Outcome of `OSSFuzz.download_latest_build`: the returned value, the
filesystem state afterwards, the URLs fetched for version resolution, and the
URLs passed to `http_utils.download_and_unpack_zip`. -/
structure BuildDownload where
  result : Option String
  fs : FS
  version_fetches : List String
  zip_fetches : List String

/-- `OSSFuzz.download_latest_build`.  `unpack` is the collaborator
`http_utils.download_and_unpack_zip(url, dir) -> bool`.  Python's
`if not latest_build_name` is falsy both for `None` and for the empty
string. -/
def download_latest_build (urlopen : String → Except HTTPError String)
    (unpack : String → String → Bool) (config : Config) (fs : FS)
    (parent_dir : String) : BuildDownload :=
  let build_dir := get_build_dir parent_dir
  if os_path_exists fs build_dir then
    -- Cache hit: download_latest_build can be called multiple times.
    ⟨some build_dir, fs, [], []⟩
  else
    let fs := makedirs fs build_dir
    let named := get_latest_build_name urlopen config
    match named.1 with
    | none => ⟨none, fs, named.2, []⟩
    | some latest_build_name =>
      if latest_build_name = "" then
        ⟨none, fs, named.2, []⟩
      else
        let oss_fuzz_build_url :=
          url_join [GCS_BASE_URL, CLUSTERFUZZ_BUILDS, config.project_name,
                    latest_build_name]
        if unpack oss_fuzz_build_url build_dir then
          ⟨some build_dir, fs, named.2, [oss_fuzz_build_url]⟩
        else
          ⟨none, fs, named.2, [oss_fuzz_build_url]⟩

/-- `OSSFuzz.upload_latest_build`: raises unconditionally
(`raise Exception(...)`). -/
def upload_latest_build (build_dir : String) : Except PyErr Bool :=
  .error (.exc "upload_latest_build not should not be called for OSSFuzz.")

/-- The project-qualified fuzz-target name computed inside
`OSSFuzz.download_corpus`: the target name, prefixed with
`project_name + "_"` when it does not already start with that string. -/
def project_qualify (project_name target_name : String) : String :=
  let qualified_name_pre := project_name ++ "_"
  if str_startswith target_name qualified_name_pre then
    target_name
  else
    qualified_name_pre ++ target_name

/-- Outcome of `OSSFuzz.download_corpus`: the returned corpus directory, the
filesystem state afterwards, and the URLs passed to
`http_utils.download_and_unpack_zip`. -/
structure CorpusDownload where
  result : String
  fs : FS
  zip_fetches : List String

/-- `OSSFuzz.download_corpus`: always creates the corpus directory, builds the
corpus URL from the project-qualified target name, calls
`http_utils.download_and_unpack_zip` and discards its boolean result,
returning the corpus directory unconditionally. -/
def download_corpus (unpack : String → String → Bool) (config : Config)
    (fs : FS) (target_name parent_dir : String) : CorpusDownload :=
  let corpus_dir := get_corpus_dir target_name parent_dir
  let fs := makedirs fs corpus_dir
  let project_qualified_fuzz_target_name :=
    project_qualify config.project_name target_name
  let corpus_url :=
    url_join [GCS_BASE_URL,
              config.project_name ++
                "-backup.clusterfuzz-external.appspot.com/corpus/libFuzzer/",
              project_qualified_fuzz_target_name, CORPUS_ZIP_NAME]
  let _ := unpack corpus_url corpus_dir
  ⟨corpus_dir, fs, [corpus_url]⟩

/-- Python attribute lookup for `upload_corpus` on an `OSSFuzz` deployment:
neither `OSSFuzz` nor `BaseClusterFuzzDeployment` defines the method (only
`ClusterFuzzLite` does), so the call raises `AttributeError` before any
collaborator interaction. -/
def upload_corpus (target_name corpus_dir : String) : Except PyErr Unit :=
  .error .attributeError

end OSSFuzz

/-- Which deployment class the factory instantiates. -/
inductive DeploymentKind where
  | ossfuzz : DeploymentKind
  | clusterfuzzlite : DeploymentKind
  deriving DecidableEq, Repr

/-- `get_clusterfuzz_deployment`: returns the `OSSFuzz` deployment when the
platform is `INTERNAL_GENERIC_CI` or `INTERNAL_GITHUB`, and the
`ClusterFuzzLite` deployment otherwise. -/
def get_clusterfuzz_deployment (config : Config) : DeploymentKind :=
  if config.platform = Platform.INTERNAL_GENERIC_CI ∨
      config.platform = Platform.INTERNAL_GITHUB then
    DeploymentKind.ossfuzz
  else
    DeploymentKind.clusterfuzzlite

/-! ## Helper lemmas -/

/-- Appending strings concatenates their character data. -/
theorem string_data_append (a b : String) : (a ++ b).data = a.data ++ b.data := by
  cases a
  cases b
  rfl

/-- A string concatenation starts with its left operand. -/
theorem str_startswith_append (a b : String) :
    str_startswith (a ++ b) a = true := by
  simp [str_startswith, string_data_append, List.isPrefixOf_iff_prefix]

/-- After `makedirs`, the directory exists. -/
theorem os_path_exists_makedirs (fs : FS) (p : String) :
    os_path_exists (makedirs fs p) p = true := by
  unfold makedirs
  by_cases h : os_path_exists fs p = true
  · simp [h]
  · simp [h, os_path_exists]

/-! ## Claims -/

/-- C1: For every configuration whose platform is `INTERNAL_GENERIC_CI` or
`INTERNAL_GITHUB`, the factory `get_clusterfuzz_deployment` returns the
`OSSFuzz` (managed) deployment; for every configuration with any other
platform value, it returns the `ClusterFuzzLite` (lite) deployment. -/
theorem C1_factory_platform_selection (config : Config) :
    ((config.platform = Platform.INTERNAL_GENERIC_CI ∨
        config.platform = Platform.INTERNAL_GITHUB) →
      get_clusterfuzz_deployment config = DeploymentKind.ossfuzz) ∧
    (¬(config.platform = Platform.INTERNAL_GENERIC_CI ∨
        config.platform = Platform.INTERNAL_GITHUB) →
      get_clusterfuzz_deployment config = DeploymentKind.clusterfuzzlite) := by
  constructor <;> intro h <;> simp [get_clusterfuzz_deployment, h]

/-- Witness for C1 at concrete configurations: an internal-GitHub
configuration gets the managed deployment, an external-GitHub configuration
gets the lite deployment. -/
theorem C1_factory_platform_selection_witness :
    get_clusterfuzz_deployment ⟨"curl", "address", Platform.INTERNAL_GITHUB⟩ =
      DeploymentKind.ossfuzz ∧
    get_clusterfuzz_deployment ⟨"curl", "address", Platform.EXTERNAL_GITHUB⟩ =
      DeploymentKind.clusterfuzzlite :=
  ⟨(C1_factory_platform_selection _).1 (Or.inr rfl),
   (C1_factory_platform_selection _).2 (by decide)⟩

/-- C3: `OSSFuzz.upload_latest_build` raises an exception for every input
build directory; it never returns normally and never silently no-ops. -/
theorem C3_ossfuzz_upload_latest_build_always_raises (build_dir : String) :
    OSSFuzz.upload_latest_build build_dir =
      Except.error (PyErr.exc
        "upload_latest_build not should not be called for OSSFuzz.") ∧
    ∀ b : Bool, OSSFuzz.upload_latest_build build_dir ≠ Except.ok b := by
  refine ⟨rfl, fun b h => ?_⟩
  simp [OSSFuzz.upload_latest_build] at h

/-- Witness for C3 at a concrete build directory. -/
theorem C3_ossfuzz_upload_latest_build_always_raises_witness :
    OSSFuzz.upload_latest_build "/out/build" =
      Except.error (PyErr.exc
        "upload_latest_build not should not be called for OSSFuzz.") :=
  (C3_ossfuzz_upload_latest_build_always_raises "/out/build").1

/-- C4: `OSSFuzz.download_corpus` returns the corpus directory path for every
target name and parent directory, whatever the fetch-and-unpack collaborator
reports: the result of the call does not depend on the collaborator at all
(its boolean result is discarded), and the operation cannot raise. -/
theorem C4_ossfuzz_download_corpus_ignores_fetch_result
    (unpack unpack' : String → String → Bool) (config : Config) (fs : FS)
    (target_name parent_dir : String) :
    (OSSFuzz.download_corpus unpack config fs target_name parent_dir).result =
      BaseClusterFuzzDeployment.get_corpus_dir target_name parent_dir ∧
    OSSFuzz.download_corpus unpack config fs target_name parent_dir =
      OSSFuzz.download_corpus unpack' config fs target_name parent_dir :=
  ⟨rfl, rfl⟩

/-- C5: If the filestore's `download_corpus` raises, then
`ClusterFuzzLite.download_corpus` re-raises that same exception; if the
filestore call succeeds, it returns the corpus directory path. -/
theorem C5_lite_download_corpus_reraises_filestore_error
    (filestore_dc : String → String → Except PyErr Unit) (fs : FS)
    (target_name parent_dir : String) :
    (∀ err : PyErr,
      filestore_dc (ClusterFuzzLite.get_corpus_name target_name)
          (BaseClusterFuzzDeployment.get_corpus_dir target_name parent_dir) =
        Except.error err →
      ClusterFuzzLite.download_corpus filestore_dc fs target_name parent_dir =
        Except.error err) ∧
    (filestore_dc (ClusterFuzzLite.get_corpus_name target_name)
          (BaseClusterFuzzDeployment.get_corpus_dir target_name parent_dir) =
        Except.ok () →
      ClusterFuzzLite.download_corpus filestore_dc fs target_name parent_dir =
        Except.ok
          (BaseClusterFuzzDeployment.get_corpus_dir target_name parent_dir,
           makedirs fs
             (BaseClusterFuzzDeployment.get_corpus_dir target_name
               parent_dir))) := by
  constructor
  · intro err h
    simp [ClusterFuzzLite.download_corpus, h]
  · intro h
    simp [ClusterFuzzLite.download_corpus, h]

/-- Witness for C5: a raising filestore stub makes the lite corpus download
re-raise the same exception, a succeeding stub yields the corpus directory. -/
theorem C5_lite_download_corpus_reraises_filestore_error_witness :
    ClusterFuzzLite.download_corpus
        (fun _ _ => Except.error (PyErr.exc "boom")) [] "do_fuzz" "/tmp" =
      Except.error (PyErr.exc "boom") ∧
    ClusterFuzzLite.download_corpus
        (fun _ _ => Except.ok ()) [] "do_fuzz" "/tmp" =
      Except.ok
        (BaseClusterFuzzDeployment.get_corpus_dir "do_fuzz" "/tmp",
         makedirs []
           (BaseClusterFuzzDeployment.get_corpus_dir "do_fuzz" "/tmp")) :=
  ⟨(C5_lite_download_corpus_reraises_filestore_error _ [] "do_fuzz" "/tmp").1
      (PyErr.exc "boom") rfl,
   (C5_lite_download_corpus_reraises_filestore_error _ [] "do_fuzz" "/tmp").2
      rfl⟩

/-- C6 counterexample: the claim says `uploadCorpus` completes normally on
both backends, but the `OSSFuzz` class defines no `upload_corpus` method at
all, so invoking it raises `AttributeError` at this concrete input instead of
completing normally. -/
theorem C6_upload_corpus_counterexample :
    OSSFuzz.upload_corpus "do_fuzz" "/tmp/corpus" =
      Except.error PyErr.attributeError ∧
    OSSFuzz.upload_corpus "do_fuzz" "/tmp/corpus" ≠ Except.ok () := by
  exact ⟨rfl, by simp [OSSFuzz.upload_corpus]⟩

/-- C6 (amended): on the lite backend `upload_corpus` never propagates an
exception — any filestore error is logged and swallowed and the call
completes normally for every target name and corpus directory — while the
managed backend defines no `upload_corpus` method, so invoking it raises
`AttributeError`. -/
theorem C6_upload_corpus_error_handling :
    (∀ (filestore_uc : String → String → Except PyErr Unit)
        (target_name corpus_dir : String),
      ClusterFuzzLite.upload_corpus filestore_uc target_name corpus_dir =
        Except.ok ()) ∧
    (∀ target_name corpus_dir : String,
      OSSFuzz.upload_corpus target_name corpus_dir =
        Except.error PyErr.attributeError) := by
  refine ⟨fun uc target_name corpus_dir => ?_, fun _ _ => rfl⟩
  cases h : uc (ClusterFuzzLite.get_corpus_name target_name) corpus_dir <;>
    simp [ClusterFuzzLite.upload_corpus, h]

/-- C7: the managed backend's project-qualification of a target name is
conditional — the target name is returned unchanged when it already starts
with `project_name ++ "_"`, and is prefixed with that string otherwise — and
idempotent: qualifying twice equals qualifying once. -/
theorem C7_project_qualification_idempotent (project_name target_name : String) :
    (str_startswith target_name (project_name ++ "_") = true →
      OSSFuzz.project_qualify project_name target_name = target_name) ∧
    (str_startswith target_name (project_name ++ "_") = false →
      OSSFuzz.project_qualify project_name target_name =
        project_name ++ "_" ++ target_name) ∧
    OSSFuzz.project_qualify project_name
        (OSSFuzz.project_qualify project_name target_name) =
      OSSFuzz.project_qualify project_name target_name := by
  refine ⟨fun h => by simp [OSSFuzz.project_qualify, h],
          fun h => by simp [OSSFuzz.project_qualify, h], ?_⟩
  by_cases h : str_startswith target_name (project_name ++ "_") = true
  · simp [OSSFuzz.project_qualify, h]
  · simp [OSSFuzz.project_qualify, h, str_startswith_append]

/-- Witness for C7 at the spec's concrete examples: an already-qualified name
is unchanged, an unqualified one gains the project qualification. -/
theorem C7_project_qualification_idempotent_witness :
    OSSFuzz.project_qualify "proj" "proj_target" = "proj_target" ∧
    OSSFuzz.project_qualify "proj" "target" = "proj" ++ "_" ++ "target" :=
  ⟨(C7_project_qualification_idempotent "proj" "proj_target").1 (by decide),
   (C7_project_qualification_idempotent "proj" "target").2.1 (by decide)⟩

/-- The filesystem after a lite build download is the input filesystem with
the build directory created (a no-op when it already existed). -/
theorem lite_download_fs_eq (filestore_dl : String → String → Bool)
    (config : Config) (fs : FS) (parent_dir : String) :
    (ClusterFuzzLite.download_latest_build filestore_dl config fs
        parent_dir).fs =
      makedirs fs (BaseClusterFuzzDeployment.get_build_dir parent_dir) := by
  unfold ClusterFuzzLite.download_latest_build
  by_cases h :
      os_path_exists fs (BaseClusterFuzzDeployment.get_build_dir parent_dir) =
        true
  · simp [h, makedirs]
  · simp only [h, Bool.false_eq_true, if_false]
    split <;> simp [makedirs, h]

/-- When the build directory already exists, the lite build download returns
it immediately, without touching the filesystem or the filestore. -/
theorem lite_download_cache_hit (filestore_dl : String → String → Bool)
    (config : Config) (fs : FS) (parent_dir : String)
    (h : os_path_exists fs
        (BaseClusterFuzzDeployment.get_build_dir parent_dir) = true) :
    ClusterFuzzLite.download_latest_build filestore_dl config fs parent_dir =
      ⟨some (BaseClusterFuzzDeployment.get_build_dir parent_dir), fs, []⟩ := by
  simp [ClusterFuzzLite.download_latest_build, h]

/-- A lite build download calls the filestore at most once. -/
theorem lite_download_calls_le_one (filestore_dl : String → String → Bool)
    (config : Config) (fs : FS) (parent_dir : String) :
    (ClusterFuzzLite.download_latest_build filestore_dl config fs
        parent_dir).filestore_calls.length ≤ 1 := by
  unfold ClusterFuzzLite.download_latest_build
  by_cases h :
      os_path_exists fs (BaseClusterFuzzDeployment.get_build_dir parent_dir) =
        true
  · simp [h]
  · simp only [h, Bool.false_eq_true, if_false]
    split <;> simp

/-- A lite build download either fails or returns the build directory. -/
theorem lite_download_result (filestore_dl : String → String → Bool)
    (config : Config) (fs : FS) (parent_dir : String) :
    (ClusterFuzzLite.download_latest_build filestore_dl config fs
        parent_dir).result = none ∨
    (ClusterFuzzLite.download_latest_build filestore_dl config fs
        parent_dir).result =
      some (BaseClusterFuzzDeployment.get_build_dir parent_dir) := by
  unfold ClusterFuzzLite.download_latest_build
  by_cases h :
      os_path_exists fs (BaseClusterFuzzDeployment.get_build_dir parent_dir) =
        true
  · right
    simp [h]
  · simp only [h, Bool.false_eq_true, if_false]
    split
    · right
      simp
    · left
      simp

/-- The version-resolution step always fetches exactly the version-file
URL. -/
theorem get_latest_build_name_fetches
    (urlopen : String → Except HTTPError String) (config : Config) :
    (OSSFuzz.get_latest_build_name urlopen config).2 =
      [OSSFuzz.version_url config] := by
  unfold OSSFuzz.get_latest_build_name
  cases h : urlopen (OSSFuzz.version_url config) <;> simp [h]

/-- The filesystem after a managed build download is the input filesystem
with the build directory created (a no-op when it already existed). -/
theorem ossfuzz_download_fs_eq (urlopen : String → Except HTTPError String)
    (unpack : String → String → Bool) (config : Config) (fs : FS)
    (parent_dir : String) :
    (OSSFuzz.download_latest_build urlopen unpack config fs parent_dir).fs =
      makedirs fs (BaseClusterFuzzDeployment.get_build_dir parent_dir) := by
  unfold OSSFuzz.download_latest_build
  by_cases h :
      os_path_exists fs (BaseClusterFuzzDeployment.get_build_dir parent_dir) =
        true
  · simp [h, makedirs]
  · simp only [h, Bool.false_eq_true, if_false]
    cases hn : (OSSFuzz.get_latest_build_name urlopen config).1 with
    | none => simp [hn]
    | some n =>
      by_cases he : n = ""
      · simp [hn, he]
      · simp only [hn, he, if_false]
        split <;> simp

/-- When the build directory already exists, the managed build download
returns it immediately, without touching the filesystem or the network. -/
theorem ossfuzz_download_cache_hit (urlopen : String → Except HTTPError String)
    (unpack : String → String → Bool) (config : Config) (fs : FS)
    (parent_dir : String)
    (h : os_path_exists fs
        (BaseClusterFuzzDeployment.get_build_dir parent_dir) = true) :
    OSSFuzz.download_latest_build urlopen unpack config fs parent_dir =
      ⟨some (BaseClusterFuzzDeployment.get_build_dir parent_dir), fs, [],
       []⟩ := by
  simp [OSSFuzz.download_latest_build, h]

/-- A managed build download fetches the version file at most once and passes
at most one URL to the fetch-and-unpack collaborator, and either fails or
returns the build directory. -/
theorem ossfuzz_download_bounds (urlopen : String → Except HTTPError String)
    (unpack : String → String → Bool) (config : Config) (fs : FS)
    (parent_dir : String) :
    (OSSFuzz.download_latest_build urlopen unpack config fs
        parent_dir).version_fetches.length ≤ 1 ∧
    (OSSFuzz.download_latest_build urlopen unpack config fs
        parent_dir).zip_fetches.length ≤ 1 ∧
    ((OSSFuzz.download_latest_build urlopen unpack config fs
        parent_dir).result = none ∨
      (OSSFuzz.download_latest_build urlopen unpack config fs
        parent_dir).result =
        some (BaseClusterFuzzDeployment.get_build_dir parent_dir)) := by
  unfold OSSFuzz.download_latest_build
  by_cases h :
      os_path_exists fs (BaseClusterFuzzDeployment.get_build_dir parent_dir) =
        true
  · simp [h]
  · simp only [h, Bool.false_eq_true, if_false]
    cases hn : (OSSFuzz.get_latest_build_name urlopen config).1 with
    | none => simp [hn, get_latest_build_name_fetches]
    | some n =>
      by_cases he : n = ""
      · simp [hn, he, get_latest_build_name_fetches]
      · simp only [hn, he, if_false]
        split <;> simp [get_latest_build_name_fetches]

/-- C2: For both backends and every parent directory, calling
`download_latest_build` twice with the same parent directory performs the
remote fetch at most once: the first call makes at most one collaborator
call, and the second call finds the build directory in place and returns its
path with the filesystem unchanged and an empty collaborator-call log. -/
theorem C2_second_download_makes_no_remote_fetch
    (filestore_dl : String → String → Bool)
    (urlopen : String → Except HTTPError String)
    (unpack : String → String → Bool) (config : Config) (fs : FS)
    (parent_dir : String) :
    (ClusterFuzzLite.download_latest_build filestore_dl config fs
        parent_dir).filestore_calls.length ≤ 1 ∧
    ClusterFuzzLite.download_latest_build filestore_dl config
        (ClusterFuzzLite.download_latest_build filestore_dl config fs
          parent_dir).fs parent_dir =
      ⟨some (BaseClusterFuzzDeployment.get_build_dir parent_dir),
       (ClusterFuzzLite.download_latest_build filestore_dl config fs
          parent_dir).fs,
       []⟩ ∧
    ((ClusterFuzzLite.download_latest_build filestore_dl config fs
        parent_dir).result = none ∨
      (ClusterFuzzLite.download_latest_build filestore_dl config fs
        parent_dir).result =
        some (BaseClusterFuzzDeployment.get_build_dir parent_dir)) ∧
    (OSSFuzz.download_latest_build urlopen unpack config fs
        parent_dir).version_fetches.length ≤ 1 ∧
    (OSSFuzz.download_latest_build urlopen unpack config fs
        parent_dir).zip_fetches.length ≤ 1 ∧
    OSSFuzz.download_latest_build urlopen unpack config
        (OSSFuzz.download_latest_build urlopen unpack config fs
          parent_dir).fs parent_dir =
      ⟨some (BaseClusterFuzzDeployment.get_build_dir parent_dir),
       (OSSFuzz.download_latest_build urlopen unpack config fs parent_dir).fs,
       [], []⟩ ∧
    ((OSSFuzz.download_latest_build urlopen unpack config fs
        parent_dir).result = none ∨
      (OSSFuzz.download_latest_build urlopen unpack config fs
        parent_dir).result =
        some (BaseClusterFuzzDeployment.get_build_dir parent_dir)) := by
  refine ⟨lite_download_calls_le_one _ _ _ _, ?_,
          lite_download_result _ _ _ _,
          (ossfuzz_download_bounds _ _ _ _ _).1,
          (ossfuzz_download_bounds _ _ _ _ _).2.1, ?_,
          (ossfuzz_download_bounds _ _ _ _ _).2.2⟩
  · apply lite_download_cache_hit
    rw [lite_download_fs_eq]
    exact os_path_exists_makedirs _ _
  · apply ossfuzz_download_cache_hit
    rw [ossfuzz_download_fs_eq]
    exact os_path_exists_makedirs _ _

/-- C9: Build unavailability is reported by an absent result, never by an
exception: `OSSFuzz.get_latest_build_name` returns `none` when the HTTP fetch
of the version file raises an `HTTPError`, and on success returns the decoded
response body verbatim; and on both backends, when the build directory is not
already cached and the remote fetch fails, `download_latest_build` returns
`none` rather than raising. -/
theorem C9_unavailable_build_reported_absent
    (urlopen : String → Except HTTPError String)
    (unpack : String → String → Bool)
    (filestore_dl : String → String → Bool) (config : Config) (fs : FS)
    (parent_dir : String)
    (hex : os_path_exists fs
        (BaseClusterFuzzDeployment.get_build_dir parent_dir) = false) :
    (∀ e : HTTPError,
      urlopen (OSSFuzz.version_url config) = Except.error e →
      (OSSFuzz.get_latest_build_name urlopen config).1 = none) ∧
    (∀ body : String,
      urlopen (OSSFuzz.version_url config) = Except.ok body →
      (OSSFuzz.get_latest_build_name urlopen config).1 = some body) ∧
    ((∀ n d, filestore_dl n d = false) →
      (ClusterFuzzLite.download_latest_build filestore_dl config fs
        parent_dir).result = none) ∧
    ((∀ u d, unpack u d = false) →
      (OSSFuzz.download_latest_build urlopen unpack config fs
        parent_dir).result = none) := by
  refine ⟨fun e h => by simp [OSSFuzz.get_latest_build_name, h],
          fun body h => by simp [OSSFuzz.get_latest_build_name, h],
          fun hfail => ?_, fun hfail => ?_⟩
  · simp [ClusterFuzzLite.download_latest_build, hex, hfail]
  · unfold OSSFuzz.download_latest_build
    simp only [hex, Bool.false_eq_true, if_false]
    cases hn : (OSSFuzz.get_latest_build_name urlopen config).1 with
    | none => simp [hn]
    | some n =>
      by_cases he : n = ""
      · simp [hn, he]
      · simp [hn, he, hfail]

/-- Witness for C9 at concrete inputs: a 404 makes version resolution yield
`none`, a successful fetch yields the body verbatim, and failing fetch stubs
make both backends' build downloads return `none`. -/
theorem C9_unavailable_build_reported_absent_witness :
    (OSSFuzz.get_latest_build_name (fun _ => Except.error ⟨404⟩)
        ⟨"curl", "address", Platform.INTERNAL_GITHUB⟩).1 = none ∧
    (OSSFuzz.get_latest_build_name
        (fun _ => Except.ok "curl-address-20230101.zip")
        ⟨"curl", "address", Platform.INTERNAL_GITHUB⟩).1 =
      some "curl-address-20230101.zip" ∧
    (ClusterFuzzLite.download_latest_build (fun _ _ => false)
        ⟨"curl", "address", Platform.EXTERNAL_GITHUB⟩ [] "/tmp").result =
      none ∧
    (OSSFuzz.download_latest_build (fun _ => Except.error ⟨404⟩)
        (fun _ _ => false) ⟨"curl", "address", Platform.INTERNAL_GITHUB⟩ []
        "/tmp").result = none :=
  ⟨(C9_unavailable_build_reported_absent (fun _ => Except.error ⟨404⟩)
      (fun _ _ => false) (fun _ _ => false) _ [] "/tmp" rfl).1 ⟨404⟩ rfl,
   (C9_unavailable_build_reported_absent
      (fun _ => Except.ok "curl-address-20230101.zip") (fun _ _ => false)
      (fun _ _ => false) _ [] "/tmp" rfl).2.1 _ rfl,
   (C9_unavailable_build_reported_absent (fun _ => Except.error ⟨404⟩)
      (fun _ _ => false) (fun _ _ => false) _ [] "/tmp" rfl).2.2.1
      (fun _ _ => rfl),
   (C9_unavailable_build_reported_absent (fun _ => Except.error ⟨404⟩)
      (fun _ _ => false) (fun _ _ => false) _ [] "/tmp" rfl).2.2.2
      (fun _ _ => rfl)⟩

/-- C10: On both backends, `download_latest_build` creates the build
directory before attempting the remote fetch, so even when a call returned
`none` because the fetch failed, the build directory exists afterwards and
every subsequent call with the same parent directory takes the cache
short-circuit: it returns the build directory path without any collaborator
call — the cache-hit check tests directory existence, not download
success. -/
theorem C10_failed_download_still_caches_directory
    (filestore_dl : String → String → Bool)
    (urlopen : String → Except HTTPError String)
    (unpack : String → String → Bool) (config : Config) (fs : FS)
    (parent_dir : String)
    (hL : (ClusterFuzzLite.download_latest_build filestore_dl config fs
        parent_dir).result = none)
    (hO : (OSSFuzz.download_latest_build urlopen unpack config fs
        parent_dir).result = none) :
    os_path_exists
        (ClusterFuzzLite.download_latest_build filestore_dl config fs
          parent_dir).fs
        (BaseClusterFuzzDeployment.get_build_dir parent_dir) = true ∧
    ClusterFuzzLite.download_latest_build filestore_dl config
        (ClusterFuzzLite.download_latest_build filestore_dl config fs
          parent_dir).fs parent_dir =
      ⟨some (BaseClusterFuzzDeployment.get_build_dir parent_dir),
       (ClusterFuzzLite.download_latest_build filestore_dl config fs
          parent_dir).fs,
       []⟩ ∧
    os_path_exists
        (OSSFuzz.download_latest_build urlopen unpack config fs
          parent_dir).fs
        (BaseClusterFuzzDeployment.get_build_dir parent_dir) = true ∧
    OSSFuzz.download_latest_build urlopen unpack config
        (OSSFuzz.download_latest_build urlopen unpack config fs
          parent_dir).fs parent_dir =
      ⟨some (BaseClusterFuzzDeployment.get_build_dir parent_dir),
       (OSSFuzz.download_latest_build urlopen unpack config fs parent_dir).fs,
       [], []⟩ := by
  have h1 : os_path_exists
      (ClusterFuzzLite.download_latest_build filestore_dl config fs
        parent_dir).fs
      (BaseClusterFuzzDeployment.get_build_dir parent_dir) = true := by
    rw [lite_download_fs_eq]
    exact os_path_exists_makedirs _ _
  have h2 : os_path_exists
      (OSSFuzz.download_latest_build urlopen unpack config fs parent_dir).fs
      (BaseClusterFuzzDeployment.get_build_dir parent_dir) = true := by
    rw [ossfuzz_download_fs_eq]
    exact os_path_exists_makedirs _ _
  exact ⟨h1, lite_download_cache_hit _ _ _ _ h1, h2,
         ossfuzz_download_cache_hit _ _ _ _ _ h2⟩

/-- Witness for C10 at concrete inputs: with failing fetch stubs, both first
calls return `none`, yet the build directory exists afterwards and the second
call takes the cache short-circuit. -/
theorem C10_failed_download_still_caches_directory_witness :
    os_path_exists
        (ClusterFuzzLite.download_latest_build (fun _ _ => false)
          ⟨"curl", "address", Platform.EXTERNAL_GITHUB⟩ [] "/tmp").fs
        (BaseClusterFuzzDeployment.get_build_dir "/tmp") = true ∧
    ClusterFuzzLite.download_latest_build (fun _ _ => false)
        ⟨"curl", "address", Platform.EXTERNAL_GITHUB⟩
        (ClusterFuzzLite.download_latest_build (fun _ _ => false)
          ⟨"curl", "address", Platform.EXTERNAL_GITHUB⟩ [] "/tmp").fs
        "/tmp" =
      ⟨some (BaseClusterFuzzDeployment.get_build_dir "/tmp"),
       (ClusterFuzzLite.download_latest_build (fun _ _ => false)
          ⟨"curl", "address", Platform.EXTERNAL_GITHUB⟩ [] "/tmp").fs,
       []⟩ ∧
    os_path_exists
        (OSSFuzz.download_latest_build (fun _ => Except.error ⟨404⟩)
          (fun _ _ => false) ⟨"curl", "address", Platform.INTERNAL_GITHUB⟩ []
          "/tmp").fs
        (BaseClusterFuzzDeployment.get_build_dir "/tmp") = true ∧
    OSSFuzz.download_latest_build (fun _ => Except.error ⟨404⟩)
        (fun _ _ => false) ⟨"curl", "address", Platform.INTERNAL_GITHUB⟩
        (OSSFuzz.download_latest_build (fun _ => Except.error ⟨404⟩)
          (fun _ _ => false) ⟨"curl", "address", Platform.INTERNAL_GITHUB⟩ []
          "/tmp").fs
        "/tmp" =
      ⟨some (BaseClusterFuzzDeployment.get_build_dir "/tmp"),
       (OSSFuzz.download_latest_build (fun _ => Except.error ⟨404⟩)
          (fun _ _ => false) ⟨"curl", "address", Platform.INTERNAL_GITHUB⟩ []
          "/tmp").fs,
       [], []⟩ :=
  C10_failed_download_still_caches_directory (fun _ _ => false)
    (fun _ => Except.error ⟨404⟩) (fun _ _ => false)
    ⟨"curl", "address", Platform.INTERNAL_GITHUB⟩ [] "/tmp" rfl rfl

/-- C8 counterexample: when the version file fetch succeeds but its body is
the empty string, version resolution succeeds with build name `""`, yet
Python's falsy test makes `download_latest_build` return early: no URL at all
is passed to fetch-and-unpack, contradicting the claim's demand that the
fetched URL equal the constructed join for every successfully resolved build
name. -/
theorem C8_empty_version_body_counterexample :
    (OSSFuzz.get_latest_build_name (fun _ => Except.ok "")
        ⟨"curl", "address", Platform.INTERNAL_GITHUB⟩).1 = some "" ∧
    (OSSFuzz.download_latest_build (fun _ => Except.ok "") (fun _ _ => true)
        ⟨"curl", "address", Platform.INTERNAL_GITHUB⟩ []
        "/tmp").zip_fetches = [] ∧
    (OSSFuzz.download_latest_build (fun _ => Except.ok "") (fun _ _ => true)
        ⟨"curl", "address", Platform.INTERNAL_GITHUB⟩ []
        "/tmp").zip_fetches ≠
      [url_join [GCS_BASE_URL, OSSFuzz.CLUSTERFUZZ_BUILDS, "curl", ""]] := by
  refine ⟨rfl, rfl, fun h => ?_⟩
  have h2 : ([] : List String) =
      [url_join [GCS_BASE_URL, OSSFuzz.CLUSTERFUZZ_BUILDS, "curl", ""]] := h
  exact List.noConfusion h2

/-- C8 (amended): whenever version resolution succeeds with a non-empty build
name `b` and the build directory is not already cached, the URL passed to
fetch-and-unpack by the managed `download_latest_build` equals the join of
the storage base URL, the segment `"clusterfuzz-builds"`, the project name
and `b`; in particular for project `"curl"` and resolved name
`"curl-address-20230101.zip"` that URL is the base URL concatenated with
`"clusterfuzz-builds/curl/curl-address-20230101.zip"`. -/
theorem C8_build_url_construction
    (urlopen : String → Except HTTPError String)
    (unpack : String → String → Bool) (config : Config) (fs : FS)
    (parent_dir : String) (b : String)
    (hex : os_path_exists fs
        (BaseClusterFuzzDeployment.get_build_dir parent_dir) = false)
    (hname : (OSSFuzz.get_latest_build_name urlopen config).1 = some b)
    (hb : b ≠ "") :
    (OSSFuzz.download_latest_build urlopen unpack config fs
        parent_dir).zip_fetches =
      [url_join [GCS_BASE_URL, OSSFuzz.CLUSTERFUZZ_BUILDS,
                 config.project_name, b]] ∧
    url_join [GCS_BASE_URL, OSSFuzz.CLUSTERFUZZ_BUILDS, "curl",
              "curl-address-20230101.zip"] =
      GCS_BASE_URL ++ "clusterfuzz-builds/curl/curl-address-20230101.zip" := by
  constructor
  · unfold OSSFuzz.download_latest_build
    simp only [hex, Bool.false_eq_true, if_false, hname]
    cases hu : unpack
        (url_join [GCS_BASE_URL, OSSFuzz.CLUSTERFUZZ_BUILDS,
                   config.project_name, b])
        (BaseClusterFuzzDeployment.get_build_dir parent_dir) <;>
      simp [hb, hu]
  · decide

/-- Witness for C8 at the spec's end-to-end scenario: project `"curl"`,
resolved build name `"curl-address-20230101.zip"`. -/
theorem C8_build_url_construction_witness :
    (OSSFuzz.download_latest_build
        (fun _ => Except.ok "curl-address-20230101.zip") (fun _ _ => true)
        ⟨"curl", "address", Platform.INTERNAL_GITHUB⟩ []
        "/tmp").zip_fetches =
      [url_join [GCS_BASE_URL, OSSFuzz.CLUSTERFUZZ_BUILDS, "curl",
                 "curl-address-20230101.zip"]] ∧
    url_join [GCS_BASE_URL, OSSFuzz.CLUSTERFUZZ_BUILDS, "curl",
              "curl-address-20230101.zip"] =
      GCS_BASE_URL ++ "clusterfuzz-builds/curl/curl-address-20230101.zip" :=
  C8_build_url_construction (fun _ => Except.ok "curl-address-20230101.zip")
    (fun _ _ => true) ⟨"curl", "address", Platform.INTERNAL_GITHUB⟩ [] "/tmp"
    "curl-address-20230101.zip" rfl rfl (by decide)
